import Mathlib

/-!
Verification development for the STL model calculator (`smc.py`).

The embedding is a shallow one: Python floats are modelled by exact
rationals `ℚ` (the claims under study are algebraic, not about rounding),
Python exceptions by an `Except` monad, and the mutable `STLUtils` object
by explicit state passing.  Each definition mirrors one function of the
source file; the doc comment of a definition names the source symbol.
-/

attribute [local semireducible] Rat.mul Rat.add Rat.sub Rat.inv Rat.ofScientific

set_option maxRecDepth 1000000

namespace SMC

/-- Kinds of Python exceptions the source can raise: `struct.error` from
short binary reads, `IndexError` from list indexing, `TypeError` from
unpacking/arithmetic on values of the wrong shape, and `ValueError` raised
explicitly by `Materials.get_density`. -/
inductive PyErr where
  | structError
  | indexError
  | typeError
  | valueError (msg : String)
deriving DecidableEq, Repr

/-- Equality of `Except` results is decidable componentwise; this lets the
closed evaluations below go through `decide`. -/
instance {ε α : Type} [DecidableEq ε] [DecidableEq α] : DecidableEq (Except ε α) :=
  fun a b =>
    match a, b with
    | .error e, .error f =>
        if h : e = f then isTrue (by rw [h]) else isFalse (fun hc => h (by cases hc; rfl))
    | .error _, .ok _ => isFalse (fun hc => by cases hc)
    | .ok _, .error _ => isFalse (fun hc => by cases hc)
    | .ok x, .ok y =>
        if h : x = y then isTrue (by rw [h]) else isFalse (fun hc => h (by cases hc; rfl))

/-- A Python value passed as the `identifier` argument of
`Materials.get_density`: an `int`, a `bool` (which in Python is a subclass
of `int`, with `True == 1` and `False == 0`), or a `str`. -/
inductive PyVal where
  | int (n : Int)
  | bool (b : Bool)
  | str (s : String)
deriving DecidableEq, Repr

/-- Python's `isinstance(identifier, int)` combined with the value used for
dict key lookup: `bool` is a subclass of `int` and `True`/`False` compare
and hash equal to `1`/`0`; strings are not ints. -/
def intKeyOf : PyVal → Option Int
  | .int n => some n
  | .bool b => some (if b then 1 else 0)
  | .str _ => none

/-- The table built by `Materials.__init__` (`smc.py` lines 16-23), in
insertion order: id, name, density.  `1.04 = 26/25`, `1.25 = 5/4`,
`1.27 = 127/100`. -/
def materials_dict : List (Int × String × ℚ) :=
  [(1, ("ABS", 26/25)), (2, ("PLA", 5/4)), (3, ("PETG", 127/100)), (4, ("PETG-CF", 5/4))]

/-- Python's `str.lower()` restricted to the character codes it is applied
to here (the material names are plain ASCII): uppercase ASCII letters map
to lowercase, everything else is unchanged.  The result is the list of
character codes, which is what the equality comparison consumes. -/
def pyLowerCodes (s : String) : List Nat :=
  s.data.map (fun c => let n := c.toNat; if 65 ≤ n ∧ n ≤ 90 then n + 32 else n)

/-- The string branch of `get_density`: scan the table in order and return
the density of the first entry whose lowercased name equals the lowercased
identifier. -/
def nameLookup (idLower : List Nat) : List (Int × String × ℚ) → Option ℚ
  | [] => none
  | (_, name, d) :: rest =>
      if pyLowerCodes name = idLower then some d else nameLookup idLower rest

/-- `Materials.get_density` (`smc.py` lines 25-42).  The integer branch
fires when `isinstance(identifier, int)` holds (ints and bools) and the key
is present in the dict; the string branch does a case-insensitive name
scan; anything else raises `ValueError`. -/
def get_density (identifier : PyVal) : Except PyErr ℚ :=
  let keyHit : Option ℚ :=
    match intKeyOf identifier with
    | some k => (materials_dict.lookup k).map (fun nd => nd.2)
    | none => none
  match keyHit with
  | some d => .ok d
  | none =>
      match identifier with
      | .str s =>
          match nameLookup (pyLowerCodes s) materials_dict with
          | some d => .ok d
          | none => .error (.valueError ("Invalid material name: " ++ s))
      | _ => .error (.valueError "Invalid material identifier")

/-! ## The mesh engine state

`STLUtils.__init__` (`smc.py` lines 57-62) sets `_volume = None`,
`_triangles = []`, `triangles_count = -1`, `is_binary_file = None`.
The file object `_f` is replaced by explicit positions into the byte list
of the file being loaded. -/

/-- A vertex as the source stores it: a Python list/tuple of floats,
modelled as a list of rationals (it is not always of length 3: the ASCII
reader can produce shorter lists, whose indexing then raises). -/
abbrev Vertex := List ℚ

/-- One element of `self._triangles`.  The binary reader appends
3-tuples of vertices; the ASCII reader appends the plain float returned by
`_read_ascii_triangle`, so the list is not uniform — both shapes must be
represented for the measurement code's tuple unpacking to be modelled. -/
inductive TriEntry where
  | tri (p1 p2 p3 : Vertex)
  | flt (v : ℚ)
deriving DecidableEq, Repr

/-- The mutable state of an `STLUtils` object. -/
structure STLUtils where
  _volume : Option ℚ
  _triangles : List TriEntry
  triangles_count : Int
  is_binary_file : Option Bool
deriving DecidableEq, Repr

/-- `STLUtils.__init__` (`smc.py` lines 57-62). -/
def STLUtils.init : STLUtils :=
  { _volume := none, _triangles := [], triangles_count := -1, is_binary_file := none }

/-- Python list indexing `p[i]`: the value, or `IndexError` out of range. -/
def pyIdx (p : Vertex) (i : Nat) : Except PyErr ℚ :=
  match p.get? i with
  | some x => .ok x
  | none => .error .indexError

/-- `STLUtils._signed_volume_of_triangle` (`smc.py` lines 91-109), with the
source's index accesses made explicit so short vertex lists raise. -/
def _signed_volume_of_triangle (p1 p2 p3 : Vertex) : Except PyErr ℚ := do
  let v321 := (← pyIdx p3 0) * (← pyIdx p2 1) * (← pyIdx p1 2)
  let v231 := (← pyIdx p2 0) * (← pyIdx p3 1) * (← pyIdx p1 2)
  let v312 := (← pyIdx p3 0) * (← pyIdx p1 1) * (← pyIdx p2 2)
  let v132 := (← pyIdx p1 0) * (← pyIdx p3 1) * (← pyIdx p2 2)
  let v213 := (← pyIdx p2 0) * (← pyIdx p1 1) * (← pyIdx p3 2)
  let v123 := (← pyIdx p1 0) * (← pyIdx p2 1) * (← pyIdx p3 2)
  return (1/6 : ℚ) * (-v321 + v231 + v312 - v132 - v213 + v123)

/-! ## Binary decoding -/

/-- A little-endian byte list as an unsigned number. -/
def bytesToNatLE (bs : List Nat) : Nat :=
  bs.foldr (fun b acc => b + 256 * acc) 0

/-- IEEE-754 binary32 decoding of 4 little-endian bytes, as
`struct.unpack("<f", ...)` performs it, into an exact rational.  Normal
values are `(2^23 + frac) * 2^exp / 2^150`, subnormals `frac / 2^149`.
The exponent-255 patterns denote infinities and NaNs, which have no
rational counterpart; no input in this development exercises them, and the
decoder maps them to 0. -/
def decodeF32le (bs : List Nat) : ℚ :=
  let u : ℕ := bytesToNatLE bs
  let sign : ℕ := u / 2 ^ 31
  let ex : ℕ := (u / 2 ^ 23) % 256
  let frac : ℕ := u % 2 ^ 23
  let mag : ℚ :=
    if ex = 0 then (frac : ℚ) / 2 ^ 149
    else if ex = 255 then 0
    else ((2 ^ 23 + frac : ℕ) : ℚ) * 2 ^ ex / 2 ^ 150
  if sign = 1 then -mag else mag

/-- `struct.unpack("@i", ...)` in `_read_length` (`smc.py` lines 137-144):
a native-byte-order signed 32-bit integer, little-endian two's complement
on the platforms the tool runs on. -/
def decodeI32native (bs : List Nat) : Int :=
  let u := bytesToNatLE bs
  if u < 2 ^ 31 then (u : Int) else (u : Int) - 2 ^ 32

/-- The open binary file: its bytes and the current read position
(`self._f`). -/
structure FileHandle where
  data : List Nat
  pos : Nat
deriving DecidableEq, Repr

/-- `self._f.read(l)`: up to `l` bytes from the current position. -/
def fread (h : FileHandle) (l : Nat) : List Nat × FileHandle :=
  let chunk := (h.data.drop h.pos).take l
  (chunk, { h with pos := h.pos + chunk.length })

/-- `STLUtils._unpack` (`smc.py` lines 111-122): read `l` bytes and fail
with `struct.error` when fewer than `l` remain, as `struct.unpack` does on
a short buffer. -/
def _unpack_bytes (h : FileHandle) (l : Nat) : Except PyErr (List Nat × FileHandle) :=
  let (chunk, h') := fread h l
  if chunk.length = l then .ok (chunk, h') else .error .structError

/-- The three floats of a 12-byte `"<3f"` record. -/
def decode3 (bs : List Nat) : Vertex :=
  [decodeF32le (bs.take 4), decodeF32le ((bs.drop 4).take 4), decodeF32le (bs.drop 8)]

/-- `STLUtils._read_triangle` (`smc.py` lines 124-135): normal vector
(12 bytes, discarded), three vertices (12 bytes each) and the 2-byte
attribute (discarded). -/
def _read_triangle (h : FileHandle) : Except PyErr (TriEntry × FileHandle) := do
  let (_, h) ← _unpack_bytes h 12
  let (b1, h) ← _unpack_bytes h 12
  let (b2, h) ← _unpack_bytes h 12
  let (b3, h) ← _unpack_bytes h 12
  let (_, h) ← _unpack_bytes h 2
  return (.tri (decode3 b1) (decode3 b2) (decode3 b3), h)

/-- The `for _ in range(self.triangles_count)` loop of the binary branch of
`load_stl` (`smc.py` lines 179-180), reading `n` triangle records in file
order. -/
def readTriangles : FileHandle → Nat → Except PyErr (List TriEntry)
  | _, 0 => .ok []
  | h, n + 1 =>
      match _read_triangle h with
      | .error e => .error e
      | .ok (t, h') =>
          match readTriangles h' n with
          | .error e => .error e
          | .ok rest => .ok (t :: rest)

/-- The binary branch of `load_stl` (`smc.py` lines 174-180): skip the
80-byte header, read the declared count, then that many records.  On
failure the error also carries the value `self.triangles_count` has at that
point — the old value when the count field itself could not be read, the
freshly assigned declared count once line 177 ran.  A negative declared
count gives an empty `range`, hence a successful load of no triangles. -/
def binLoad (f : List Nat) (oldCount : Int) : Except (PyErr × Int) (List TriEntry × Int) :=
  match _unpack_bytes { data := f, pos := 80 } 4 with
  | .error e => .error (e, oldCount)
  | .ok (bs, h') =>
      match readTriangles h' (decodeI32native bs).toNat with
      | .ok tris => .ok (tris, decodeI32native bs)
      | .error e => .error (e, decodeI32native bs)

/-! ## Text (ASCII) decoding

The text branch works on the decoded lines of the file.  The inputs
exercised here are plain ASCII, for which Python's text decoding is the
identity on byte values, so lines are kept as lists of character codes. -/

/-- The character codes of a Lean string literal (used to write the test
files and the keyword constants). -/
def strCodes (s : String) : List Nat :=
  s.data.map Char.toNat

/-- `f.readlines()`: split after every newline, keeping the newline in each
line, with no empty trailing line. -/
def splitNL (cur : List Nat) : List Nat → List (List Nat)
  | [] => if cur.isEmpty then [] else [cur.reverse]
  | 10 :: rest => (cur.reverse ++ [10]) :: splitNL [] rest
  | c :: rest => splitNL (c :: cur) rest

/-- The lines of a text file. -/
def pyReadLines (f : List Nat) : List (List Nat) :=
  splitNL [] f

/-- Python's `str.strip()` on the codes of a line: remove ASCII whitespace
(space, tab, newline, carriage return, vertical tab, form feed) from both
ends. -/
def pyStripCodes (l : List Nat) : List Nat :=
  let ws : Nat → Bool := fun c => c == 32 || c == 9 || c == 10 || c == 13 || c == 11 || c == 12
  ((l.dropWhile ws).reverse.dropWhile ws).reverse

/-- `a.startswith(b)` on code lists. -/
def codesStartWith : List Nat → List Nat → Bool
  | [], _ => true
  | _ :: _, [] => false
  | p :: ps, c :: cs => p == c && codesStartWith ps cs

/-- An ASCII digit code. -/
def isDigitCode (c : Nat) : Bool :=
  48 ≤ c && c ≤ 57

/-- The longest digit run at the head of the list, and the rest. -/
def spanDigits (l : List Nat) : List Nat × List Nat :=
  (l.takeWhile isDigitCode, l.dropWhile isDigitCode)

/-- The first alternative `[-+]?\d*\.\d+` of the vertex-number pattern of
`_read_ascii_triangle`, matched at the head of the list: an optional sign,
greedy digits, a dot, then at least one digit.  Returns the matched codes
and the remainder, or `none` when the alternative does not match here (no
shorter digit run can rescue it, since every dropped character is itself a
digit and not a dot). -/
def tryFloatAlt (cs : List Nat) : Option (List Nat × List Nat) :=
  let (sgn, cs1) :=
    match cs with
    | c :: rest => if c == 43 || c == 45 then ([c], rest) else (([] : List Nat), cs)
    | [] => (([] : List Nat), ([] : List Nat))
  let (ds, cs2) := spanDigits cs1
  match cs2 with
  | 46 :: cs3 =>
      let (es, cs4) := spanDigits cs3
      if es.isEmpty then none else some (sgn ++ ds ++ 46 :: es, cs4)
  | _ => none

/-- `re.findall(r"[-+]?\d*\.\d+|\d+", line)` (`smc.py` lines 86-88): scan
left to right; at each position try the first alternative, else the second
(`\d+`, a nonempty digit run), else advance one character.  `fuel` bounds
the recursion; every step consumes at least one character, so
`fuel = cs.length` suffices. -/
def findallAux : Nat → List Nat → List (List Nat)
  | 0, _ => []
  | _, [] => []
  | fuel + 1, c :: rest =>
      match tryFloatAlt (c :: rest) with
      | some (m, rest') => m :: findallAux fuel rest'
      | none =>
          let (ds, rest') := spanDigits (c :: rest)
          if ds.isEmpty then findallAux fuel rest
          else ds :: findallAux fuel rest'

/-- All numeric substrings of a line, in order. -/
def findNums (l : List Nat) : List (List Nat) :=
  findallAux l.length l

/-- The value of a digit-code run. -/
def digitsVal (ds : List Nat) : ℕ :=
  ds.foldl (fun acc d => acc * 10 + (d - 48)) 0

/-- Python's `float()` applied to a string the vertex-number pattern
matched: an optional sign, an integer part, an optional dot followed by a
fractional part.  The matched decimals are exact rationals. -/
def pyFloatOfCodes (m : List Nat) : ℚ :=
  let (neg, m1) :=
    match m with
    | c :: rest =>
        if c == 45 then (true, rest) else if c == 43 then (false, rest) else (false, m)
    | [] => (false, ([] : List Nat))
  let (ip, m2) := spanDigits m1
  let v : ℚ :=
    match m2 with
    | 46 :: fp => (digitsVal ip : ℚ) + (digitsVal fp : ℚ) / 10 ^ fp.length
    | _ => (digitsVal ip : ℚ)
  if neg then -v else v

/-- `lines[i]` with Python's `IndexError` out of range. -/
def pyLine (lines : List (List Nat)) (i : Nat) : Except PyErr (List Nat) :=
  match lines.get? i with
  | some l => .ok l
  | none => .error .indexError

/-- `STLUtils._read_ascii_triangle` (`smc.py` lines 77-89): parse the
numeric tokens of the three lines after `lines[index]` as the vertices and
return the signed volume of that triangle — a float, not a triangle. -/
def _read_ascii_triangle (lines : List (List Nat)) (index : Nat) : Except PyErr ℚ := do
  let l1 ← pyLine lines (index + 1)
  let l2 ← pyLine lines (index + 2)
  let l3 ← pyLine lines (index + 3)
  let p1 : Vertex := (findNums l1).map pyFloatOfCodes
  let p2 : Vertex := (findNums l2).map pyFloatOfCodes
  let p3 : Vertex := (findNums l3).map pyFloatOfCodes
  _signed_volume_of_triangle p1 p2 p3

/-- The codes of the keyword `facet`. -/
def facetCodes : List Nat :=
  strCodes "facet"

/-- The `while i < len(lines)` loop of the text branch of `load_stl`
(`smc.py` lines 184-191): on a line whose stripped content starts with
`facet`, append the float `_read_ascii_triangle` returns and jump 7 lines;
otherwise advance one line.  Every step increases `i` while `i` stays below
`lines.length`, so `fuel = lines.length` steps always reach the exit. -/
def asciiScan : Nat → List (List Nat) → Nat → List TriEntry → Except PyErr (List TriEntry)
  | 0, _, _, acc => .ok acc
  | fuel + 1, lines, i, acc =>
      if i < lines.length then
        if codesStartWith facetCodes (pyStripCodes (lines.getD i [])) then
          match _read_ascii_triangle lines i with
          | .ok v => asciiScan fuel lines (i + 7) (acc ++ [.flt v])
          | .error e => .error e
        else asciiScan fuel lines (i + 1) acc
      else .ok acc

/-- The text branch of `load_stl` (`smc.py` lines 181-192).  On success
`triangles_count` is set to the length of the list (line 192); on failure
it keeps its old value, the loop having raised before line 192. -/
def asciiLoad (f : List Nat) (oldCount : Int) : Except (PyErr × Int) (List TriEntry × Int) :=
  match asciiScan (pyReadLines f).length (pyReadLines f) 0 [] with
  | .ok tris => .ok (tris, (tris.length : Int))
  | .error e => .error (e, oldCount)

/-! ## Load orchestration -/

/-- `STLUtils._is_binary` (`smc.py` lines 64-75): decode the first 80 bytes
permissively and test whether the header starts with `solid`.  Substituting
replacement characters for undecodable bytes never produces an ASCII
letter, so the test is equivalent to the first five bytes being the codes
of `solid`. -/
def _is_binary (f : List Nat) : Bool :=
  !codesStartWith (strCodes "solid") (f.take 80)

/-- One attempt at loading: the dispatch inside the `try` of `load_stl`
(`smc.py` lines 173-192), returning the triangles and count on success, or
the caught exception together with the value `triangles_count` holds when
it is raised. -/
def loadResult (s : STLUtils) (f : List Nat) : Except (PyErr × Int) (List TriEntry × Int) :=
  if _is_binary f then binLoad f s.triangles_count else asciiLoad f s.triangles_count

/-- `STLUtils.load_stl` (`smc.py` lines 164-196): record the encoding,
clear the triangle list, run the loader, and on a caught exception leave
the list empty (the `except` clause, line 196).  `self._volume` is not
touched on either path. -/
def load_stl (s : STLUtils) (f : List Nat) : STLUtils :=
  let isBin := _is_binary f
  match loadResult s f with
  | .ok (tris, cnt) =>
      { s with is_binary_file := some isBin, _triangles := tris, triangles_count := cnt }
  | .error (_, cnt) =>
      { s with is_binary_file := some isBin, _triangles := [], triangles_count := cnt }

/-! ## Measurements -/

/-- The generator inside `sum(...)` of `calculate_volume` (`smc.py` line
210): unpack each entry as `p1, p2, p3` — a `TypeError` on the floats the
ASCII loader stores — and accumulate the signed volumes left to right. -/
def sumVolAux : List TriEntry → ℚ → Except PyErr ℚ
  | [], acc => .ok acc
  | .flt _ :: _, _ => .error .typeError
  | .tri p1 p2 p3 :: rest, acc =>
      match _signed_volume_of_triangle p1 p2 p3 with
      | .ok v => sumVolAux rest (acc + v)
      | .error e => .error e

/-- `STLUtils.calculate_volume` (`smc.py` lines 199-213): `None` (after an
error message) when no triangles are loaded; otherwise the cached value,
computed on first call as the signed-volume sum divided by 1000.  Returns
the result together with the updated object state. -/
def calculate_volume (s : STLUtils) : Except PyErr (Option ℚ) × STLUtils :=
  if s._triangles.isEmpty then (.ok none, s)
  else
    match s._volume with
    | some v => (.ok (some v), s)
    | none =>
        match sumVolAux s._triangles 0 with
        | .ok total => ((.ok (some (total / 1000))), { s with _volume := some (total / 1000) })
        | .error e => (.error e, s)

/-- `STLUtils.calculate_mass` (`smc.py` lines 216-234): multiply the volume
by the density.  When `calculate_volume` returned `None`, the expression
`volume * density` raises `TypeError`; a nonpositive mass yields the
sentinel `-1` after a warning. -/
def calculate_mass (s : STLUtils) (density : ℚ) : Except PyErr (Option ℚ) × STLUtils :=
  match calculate_volume s with
  | (.error e, s') => (.error e, s')
  | (.ok none, s') => (.error .typeError, s')
  | (.ok (some v), s') =>
      let mass := v * density
      if mass ≤ 0 then (.ok (some (-1)), s') else (.ok (some mass), s')

/-- `STLUtils.calculate_triangles` (`smc.py` lines 260-270). -/
def calculate_triangles (s : STLUtils) : Except PyErr (Option Int) :=
  if s._triangles.isEmpty then .ok none else .ok (some s.triangles_count)

/-- The loop body of `calculate_area` (`smc.py` lines 248-255): unpack the
entry, take the two edge vectors from `p1`, their cross product and half
the square root of its squared magnitude (`** 0.5`, applied to a
nonnegative number, is the square root).  The accumulation is in the reals
because the magnitude of a rational vector need not be rational. -/
noncomputable def areaFold : List TriEntry → ℝ → Except PyErr ℝ
  | [], acc => .ok acc
  | .flt _ :: _, _ => .error .typeError
  | .tri p1 p2 p3 :: rest, acc => do
      let ax := (← pyIdx p2 0) - (← pyIdx p1 0)
      let ay := (← pyIdx p2 1) - (← pyIdx p1 1)
      let az := (← pyIdx p2 2) - (← pyIdx p1 2)
      let bx := (← pyIdx p3 0) - (← pyIdx p1 0)
      let by' := (← pyIdx p3 1) - (← pyIdx p1 1)
      let bz := (← pyIdx p3 2) - (← pyIdx p1 2)
      let cx := ay * bz - az * by'
      let cy := az * bx - ax * bz
      let cz := ax * by' - ay * bx
      areaFold rest (acc + (1/2 : ℝ) * Real.sqrt ((cx * cx + cy * cy + cz * cz : ℚ) : ℝ))

/-- `STLUtils.calculate_area` (`smc.py` lines 236-258): `None` when no
triangles are loaded, otherwise the accumulated area divided by 100. -/
noncomputable def calculate_area (s : STLUtils) : Except PyErr (Option ℝ) :=
  if s._triangles.isEmpty then .ok none
  else (areaFold s._triangles 0).map (fun a => some (a / 100))

/-- The six running extrema of `calculate_dimensions`.  `none` models the
`float('inf')` / `float('-inf')` initial values, which every comparison
with a finite coordinate replaces. -/
structure DimAcc where
  min_x : Option ℚ
  min_y : Option ℚ
  min_z : Option ℚ
  max_x : Option ℚ
  max_y : Option ℚ
  max_z : Option ℚ
deriving DecidableEq, Repr

/-- `min(m, x)` with `m` possibly the infinite initial value. -/
def minO (o : Option ℚ) (x : ℚ) : Option ℚ :=
  some (match o with | none => x | some m => min m x)

/-- `max(M, x)` with `M` possibly the infinite initial value. -/
def maxO (o : Option ℚ) (x : ℚ) : Option ℚ :=
  some (match o with | none => x | some m => max m x)

/-- The inner `for point in (p1, p2, p3)` body of `calculate_dimensions`
(`smc.py` lines 289-295): update all six extrema from one vertex, raising
`IndexError` on a short vertex list. -/
def dimStepVertex (a : DimAcc) (p : Vertex) : Except PyErr DimAcc := do
  let x ← pyIdx p 0
  let y ← pyIdx p 1
  let z ← pyIdx p 2
  return { min_x := minO a.min_x x, min_y := minO a.min_y y, min_z := minO a.min_z z,
           max_x := maxO a.max_x x, max_y := maxO a.max_y y, max_z := maxO a.max_z z }

/-- The outer loop of `calculate_dimensions` over the triangle entries. -/
def dimFold : List TriEntry → DimAcc → Except PyErr DimAcc
  | [], a => .ok a
  | .flt _ :: _, _ => .error .typeError
  | .tri p1 p2 p3 :: rest, a => do
      let a ← dimStepVertex a p1
      let a ← dimStepVertex a p2
      let a ← dimStepVertex a p3
      dimFold rest a

/-- `STLUtils.calculate_dimensions` (`smc.py` lines 272-303): `None` when
no triangles are loaded, otherwise `(max-min)` per axis.  The final match's
fallback arm is unreachable: the guard ensures the loop ran over at least
one triangle, so a successful fold leaves every extremum finite (in Python
the arm would compute `inf - inf`). -/
def calculate_dimensions (s : STLUtils) : Except PyErr (Option (ℚ × ℚ × ℚ)) :=
  if s._triangles.isEmpty then .ok none
  else
    match dimFold s._triangles ⟨none, none, none, none, none, none⟩ with
    | .error e => .error e
    | .ok a =>
        match a.min_x, a.min_y, a.min_z, a.max_x, a.max_y, a.max_z with
        | some mx, some my, some mz, some fx, some fy, some fz =>
            .ok (some (fx - mx, fy - my, fz - mz))
        | _, _, _, _, _, _ => .ok none

/-- `STLUtils.cm3_to_inch3` (`smc.py` lines 152-162). -/
def cm3_to_inch3 (v : ℚ) : ℚ :=
  v * (610237441 / 10000000000)

/-! ## Concrete input files

Small STL files used as witnesses and counterexamples.  The binary files
use the exact little-endian IEEE-754 encodings `1.0 = 00 00 80 3F` and
`2.0 = 00 00 00 40`. -/

/-- A run of zero bytes (header padding, zero coordinates). -/
def zeros (n : Nat) : List Nat :=
  List.replicate n 0

/-- The four little-endian bytes of the binary32 value `1.0`. -/
def f32one : List Nat :=
  [0, 0, 128, 63]

/-- The four little-endian bytes of the binary32 value `2.0`. -/
def f32two : List Nat :=
  [0, 0, 0, 64]

/-- A well-formed binary STL file with one triangle
`(1,0,0), (0,1,0), (0,0,1)`: 80-byte zero header (not starting with
`solid`), count 1, one 50-byte record. -/
def fileA : List Nat :=
  zeros 80 ++ [1, 0, 0, 0] ++ zeros 12 ++
    (f32one ++ zeros 8) ++ (zeros 4 ++ f32one ++ zeros 4) ++ (zeros 8 ++ f32one) ++ [0, 0]

/-- A well-formed binary STL file with one triangle
`(2,0,0), (0,2,0), (0,0,2)`, whose signed volume differs from `fileA`'s. -/
def fileB : List Nat :=
  zeros 80 ++ [1, 0, 0, 0] ++ zeros 12 ++
    (f32two ++ zeros 8) ++ (zeros 4 ++ f32two ++ zeros 4) ++ (zeros 8 ++ f32two) ++ [0, 0]

/-- A binary STL file truncated mid-record: it declares one triangle but
carries only 30 of the 50 record bytes. -/
def truncFile : List Nat :=
  zeros 80 ++ [1, 0, 0, 0] ++ zeros 30

/-- A standard-format ASCII STL file with one facet: the `facet` line is
followed by `outer loop`, three `vertex` lines, `endloop`, `endfacet`. -/
def asciiFileStd : List Nat :=
  strCodes "solid test\nfacet normal 0 0 0\nouter loop\nvertex 0 0 0\nvertex 1 0 0\nvertex 0 1 0\nendloop\nendfacet\nendsolid test\n"

/-- A non-standard ASCII file whose three vertex lines directly follow the
`facet` line (no `outer loop`/`endloop`), so they sit at the offsets
`_read_ascii_triangle` actually reads. -/
def asciiFileNoLoop : List Nat :=
  strCodes "solid t\nfacet normal 0 0 0\nvertex 1 0 0\nvertex 0 1 0\nvertex 0 0 1\nendfacet\nendsolid t\n"

/-! ## Specification-side definitions

These follow the spec's words (§4.6 of the spec / the claims under study)
rather than the code, for the refinement-style claims that compare the two. -/

/-- A triangle as the spec describes it: an ordered triple of vertices,
each an `(x, y, z)` coordinate triple. -/
abbrev Tri3 := (ℚ × ℚ × ℚ) × (ℚ × ℚ × ℚ) × (ℚ × ℚ × ℚ)

/-- The in-memory entry the binary loader produces for a spec triangle. -/
def mkTri (t : Tri3) : TriEntry :=
  .tri [t.1.1, t.1.2.1, t.1.2.2] [t.2.1.1, t.2.1.2.1, t.2.1.2.2]
    [t.2.2.1, t.2.2.2.1, t.2.2.2.2]

/-- The spec's signed tetrahedron volume:
`vol(p1,p2,p3) = (1/6) * (-v321 + v231 + v312 - v132 - v213 + v123)` with
`v321 = p3.x * p2.y * p1.z` and the analogous permuted products. -/
def specSignedVol (t : Tri3) : ℚ :=
  match t with
  | ((x1, y1, z1), (x2, y2, z2), (x3, y3, z3)) =>
      (1/6 : ℚ) * (-(x3 * y2 * z1) + x2 * y3 * z1 + x3 * y1 * z2
        - x1 * y3 * z2 - x2 * y1 * z3 + x1 * y2 * z3)

/-- The squared magnitude of the cross product of the two edge vectors
from `p1` (to `p2` and to `p3`), as the spec's surface-area rule
describes them. -/
def specCrossSq (t : Tri3) : ℚ :=
  match t with
  | ((x1, y1, z1), (x2, y2, z2), (x3, y3, z3)) =>
      let ux := x2 - x1
      let uy := y2 - y1
      let uz := z2 - z1
      let vx := x3 - x1
      let vy := y3 - y1
      let vz := z3 - z1
      let nx := uy * vz - uz * vy
      let ny := uz * vx - ux * vz
      let nz := ux * vy - uy * vx
      nx * nx + ny * ny + nz * nz

/-- The spec's per-triangle area contribution: half the magnitude of the
cross product of the two edge vectors from `p1`. -/
noncomputable def specAreaTerm (t : Tri3) : ℝ :=
  (1/2 : ℝ) * Real.sqrt ((specCrossSq t : ℚ) : ℝ)

/-! ## Claim theorems -/

/-- C9: material lookup is case-insensitive on names and agrees between
integer code and name for every entry of the table; in particular
`get_density(2)`, `get_density("pla")` and `get_density("PLA")` all return
the PLA density `1.25 = 5/4`.  The conjunction spells the agreement out for
all four entries (`1.04 = 26/25`, `1.27 = 127/100`), each by id, by
exact-case name and by lowercase name. -/
theorem get_density_case_insensitive_agrees :
    (get_density (.int 2) = .ok (5/4 : ℚ) ∧
     get_density (.str "pla") = .ok (5/4 : ℚ) ∧
     get_density (.str "PLA") = .ok (5/4 : ℚ)) ∧
    (get_density (.int 1) = .ok (26/25 : ℚ) ∧
     get_density (.str "ABS") = .ok (26/25 : ℚ) ∧
     get_density (.str "abs") = .ok (26/25 : ℚ)) ∧
    (get_density (.int 3) = .ok (127/100 : ℚ) ∧
     get_density (.str "PETG") = .ok (127/100 : ℚ) ∧
     get_density (.str "petg") = .ok (127/100 : ℚ)) ∧
    (get_density (.int 4) = .ok (5/4 : ℚ) ∧
     get_density (.str "PETG-CF") = .ok (5/4 : ℚ) ∧
     get_density (.str "petg-cf") = .ok (5/4 : ℚ) ∧
     get_density (.str "PeTg-Cf") = .ok (5/4 : ℚ)) := by
  decide

/-- C10: `get_density(True)` takes the integer-code path — Python's `bool`
is a subclass of `int` and `True` compares equal to the key `1` — so it
returns the ABS density `1.04 = 26/25` rather than failing with the
invalid-identifier `ValueError`. -/
theorem get_density_bool_true_is_abs :
    get_density (.bool true) = .ok (26/25 : ℚ) ∧
    get_density (.bool true) = get_density (.int 1) ∧
    get_density (.bool true) ≠ .error (.valueError "Invalid material identifier") := by
  decide

/-- C2 (evidence of the code bug): the binary/text round trip does not
hold.  A standard-format ASCII file fails to load entirely — the reader
takes the `outer loop` line as the first vertex, finds no numeric token in
it, and the signed-volume indexing raises — leaving an empty triangle list
on which every measurement reports not-loaded; and a file laid out so the
vertex lines sit where the reader looks loads *floats* (the per-facet
signed volumes) into the triangle list, on which volume, area and
dimensions all raise `TypeError` instead of succeeding. -/
theorem ascii_roundtrip_fails :
    (_is_binary asciiFileStd = false ∧
     (load_stl STLUtils.init asciiFileStd)._triangles = [] ∧
     (calculate_volume (load_stl STLUtils.init asciiFileStd)).1 = .ok none ∧
     calculate_area (load_stl STLUtils.init asciiFileStd) = .ok none ∧
     calculate_dimensions (load_stl STLUtils.init asciiFileStd) = .ok none) ∧
    ((load_stl STLUtils.init asciiFileNoLoop)._triangles = [TriEntry.flt (1/6 : ℚ)] ∧
     (calculate_volume (load_stl STLUtils.init asciiFileNoLoop)).1 = .error .typeError ∧
     calculate_area (load_stl STLUtils.init asciiFileNoLoop) = .error .typeError ∧
     calculate_dimensions (load_stl STLUtils.init asciiFileNoLoop) = .error .typeError) := by
  have h1 : (load_stl STLUtils.init asciiFileStd)._triangles = [] := by decide
  have h2 : (load_stl STLUtils.init asciiFileNoLoop)._triangles
      = [TriEntry.flt (1/6 : ℚ)] := by decide
  refine ⟨⟨by decide, h1, by decide, ?_, by decide⟩, ⟨h2, by decide, ?_, by decide⟩⟩
  · simp [calculate_area, h1]
  · simp [calculate_area, h2, areaFold, Except.map]

/-- C3 (counterexample): loading the truncated binary file `truncFile`
fails, and afterwards the triangle list is empty but `triangles_count` is
the declared count 1, not the never-loaded sentinel -1 the claim states. -/
theorem truncated_load_keeps_declared_count :
    (load_stl STLUtils.init truncFile)._triangles = [] ∧
    (load_stl STLUtils.init truncFile).triangles_count = 1 ∧
    ¬(load_stl STLUtils.init truncFile).triangles_count = -1 := by
  decide

/-- C4 (evidence of the code bug): `load_stl` never clears the cached
`_volume`.  After loading `fileA`, computing its volume `1/6000`, and then
successfully loading `fileB` (whose single triangle's volume sum is
`4/3`, i.e. `1/750` after division by 1000), `calculate_volume` still
returns the stale `1/6000`; recomputing with the cache cleared shows the
newly loaded triangles' volume is `1/750 ≠ 1/6000`. -/
theorem reload_keeps_stale_cached_volume :
    (load_stl (calculate_volume (load_stl STLUtils.init fileA)).2 fileB)._triangles
      = [TriEntry.tri [2, 0, 0] [0, 2, 0] [0, 0, 2]] ∧
    (load_stl (calculate_volume (load_stl STLUtils.init fileA)).2 fileB)._volume
      = some (1/6000 : ℚ) ∧
    (calculate_volume
      (load_stl (calculate_volume (load_stl STLUtils.init fileA)).2 fileB)).1
      = .ok (some (1/6000 : ℚ)) ∧
    (calculate_volume
      { load_stl (calculate_volume (load_stl STLUtils.init fileA)).2 fileB with
          _volume := none }).1
      = .ok (some (1/750 : ℚ)) ∧
    (1/6000 : ℚ) ≠ (1/750 : ℚ) := by
  refine ⟨by decide, by decide, by decide, by decide, by decide⟩

/-- C5 (evidence of the code bug): on a fresh, never-loaded engine,
`calculate_volume`, `calculate_area`, `calculate_triangles` and
`calculate_dimensions` all report the not-loaded condition as an error
result (`None` after an error message), but `calculate_mass` multiplies
that `None` by the density and crashes with an uncaught `TypeError` for
every density. -/
theorem fresh_engine_calculate_calls (density : ℚ) :
    (calculate_volume STLUtils.init).1 = .ok none ∧
    calculate_area STLUtils.init = .ok none ∧
    calculate_triangles STLUtils.init = .ok none ∧
    calculate_dimensions STLUtils.init = .ok none ∧
    (calculate_mass STLUtils.init density).1 = .error .typeError := by
  have hv : calculate_volume STLUtils.init = (.ok none, STLUtils.init) := by decide
  refine ⟨by decide, ?_, by decide, by decide, ?_⟩
  · simp [calculate_area, STLUtils.init]
  · simp [calculate_mass, hv]

/-- Evaluating the source's signed-volume function on a triple of
3-element vertex lists gives the spec's closed formula. -/
theorem signed_vol_mkTri (t : Tri3) :
    _signed_volume_of_triangle [t.1.1, t.1.2.1, t.1.2.2]
      [t.2.1.1, t.2.1.2.1, t.2.1.2.2] [t.2.2.1, t.2.2.2.1, t.2.2.2.2]
      = .ok (specSignedVol t) := by
  obtain ⟨⟨x1, y1, z1⟩, ⟨x2, y2, z2⟩, ⟨x3, y3, z3⟩⟩ := t
  rfl

/-- The volume accumulation over a list of well-formed triangles is the
running sum of the spec's per-triangle formula. -/
theorem sumVolAux_map (ts : List Tri3) (acc : ℚ) :
    sumVolAux (ts.map mkTri) acc = .ok (acc + (ts.map specSignedVol).sum) := by
  induction ts generalizing acc with
  | nil => simp [sumVolAux]
  | cons t ts ih =>
      rw [List.map_cons, mkTri, sumVolAux, signed_vol_mkTri]
      show sumVolAux (ts.map mkTri) (acc + specSignedVol t) = _
      rw [ih, List.map_cons, List.sum_cons, add_assoc]

/-- A nonempty mapped triangle list is nonempty. -/
theorem map_mkTri_not_empty (ts : List Tri3) (hne : ts ≠ []) :
    (ts.map mkTri).isEmpty = false := by
  cases ts with
  | nil => exact absurd rfl hne
  | cons a l => rfl

/-- C1: on an engine whose loaded triangle list is the (non-empty) list of
well-formed triangles and whose volume cache is still unset — the state a
successful binary load of a fresh engine leaves — `calculate_volume`
returns the sum of the spec's signed tetrahedron volumes divided by 1000. -/
theorem calculate_volume_spec (ts : List Tri3) (s : STLUtils)
    (hne : ts ≠ []) (hs : s._triangles = ts.map mkTri) (hv : s._volume = none) :
    (calculate_volume s).1 = .ok (some ((ts.map specSignedVol).sum / 1000)) := by
  have hemp := map_mkTri_not_empty ts hne
  simp only [calculate_volume, hs, hv, hemp, Bool.false_eq_true, if_false]
  rw [sumVolAux_map]
  simp

/-- Witness for C1: a single triangle `(1,0,0), (0,1,0), (0,0,1)` has
signed volume `1/6`, so the returned volume is `1/6000`. -/
theorem calculate_volume_spec_witness :
    (calculate_volume
      { _volume := none, _triangles := [((1, 0, 0), (0, 1, 0), (0, 0, 1))].map mkTri,
        triangles_count := 1, is_binary_file := some true }).1
      = .ok (some ((1 : ℚ)/6000)) := by
  rw [calculate_volume_spec [((1, 0, 0), (0, 1, 0), (0, 0, 1))] _ (by decide) rfl rfl]
  decide

/-- C1 (counterexample): the claim's universal reading fails.  This engine
state is reached by loading `fileA`, computing its volume, then
successfully reloading `fileB`: its loaded triangle list is the non-empty,
well-formed `[(2,0,0), (0,2,0), (0,0,2)]`, whose claimed sum-formula value
is `1/750`, yet `calculate_volume` returns the stale cached `1/6000`
because `load_stl` never clears the cache. -/
theorem calculate_volume_spec_counterexample :
    (load_stl (calculate_volume (load_stl STLUtils.init fileA)).2 fileB)._triangles
      = [((2, 0, 0), (0, 2, 0), (0, 0, 2))].map mkTri ∧
    (calculate_volume
      (load_stl (calculate_volume (load_stl STLUtils.init fileA)).2 fileB)).1
      = .ok (some (1/6000 : ℚ)) ∧
    (([((2, 0, 0), (0, 2, 0), (0, 0, 2))] : List Tri3).map specSignedVol).sum / 1000
      = (1/750 : ℚ) ∧
    (1/6000 : ℚ) ≠ (1/750 : ℚ) := by
  refine ⟨by decide, by decide, by decide, by decide⟩

/-- C7: with a non-empty triangle list, calling `calculate_volume` twice
returns the same result both times and leaves the state of the first call
unchanged; when the first call returns a value, that value is exactly what
the first call cached. -/
theorem calculate_volume_idempotent (s : STLUtils) (hne : s._triangles ≠ []) :
    (calculate_volume (calculate_volume s).2).1 = (calculate_volume s).1 ∧
    (calculate_volume (calculate_volume s).2).2 = (calculate_volume s).2 ∧
    ∀ v : ℚ, (calculate_volume s).1 = .ok (some v) →
      (calculate_volume s).2._volume = some v := by
  have hemp : s._triangles.isEmpty = false := by
    cases hl : s._triangles with
    | nil => exact absurd hl hne
    | cons a l => rfl
  cases hv : s._volume with
  | some v =>
      have h1 : calculate_volume s = (.ok (some v), s) := by
        simp [calculate_volume, hemp, hv]
      refine ⟨by simp [h1], by simp [h1], ?_⟩
      intro w hw
      simp [h1] at hw
      simp [h1, hv, hw]
  | none =>
      cases hsum : sumVolAux s._triangles 0 with
      | ok total =>
          have h1 : calculate_volume s
              = (.ok (some (total / 1000)), { s with _volume := some (total / 1000) }) := by
            simp [calculate_volume, hemp, hv, hsum]
          have h2 : calculate_volume { s with _volume := some (total / 1000) }
              = (.ok (some (total / 1000)), { s with _volume := some (total / 1000) }) := by
            simp [calculate_volume, hemp]
          refine ⟨by simp [h1, h2], by simp [h1, h2], ?_⟩
          intro w hw
          simp [h1] at hw
          simp [h1, hw]
      | error e =>
          have h1 : calculate_volume s = (.error e, s) := by
            simp [calculate_volume, hemp, hv, hsum]
          refine ⟨by simp [h1], by simp [h1], ?_⟩
          intro w hw
          simp [h1] at hw

/-- Witness for C7: the two calls agree on a concretely loaded engine. -/
theorem calculate_volume_idempotent_witness :
    (calculate_volume (calculate_volume (load_stl STLUtils.init fileA)).2).1
      = (calculate_volume (load_stl STLUtils.init fileA)).1 :=
  (calculate_volume_idempotent (load_stl STLUtils.init fileA) (by decide)).1

/-- One step of the area loop on a well-formed triangle adds the spec's
per-triangle area contribution to the accumulator: the source's edge
vectors, cross product and `** 0.5` coincide with the spec's. -/
theorem areaFold_cons_mkTri (t : Tri3) (rest : List TriEntry) (acc : ℝ) :
    areaFold (mkTri t :: rest) acc = areaFold rest (acc + specAreaTerm t) := by
  obtain ⟨⟨x1, y1, z1⟩, ⟨x2, y2, z2⟩, ⟨x3, y3, z3⟩⟩ := t
  rfl

/-- The area accumulation over a list of well-formed triangles is the
running sum of the spec's per-triangle contributions. -/
theorem areaFold_map (ts : List Tri3) (acc : ℝ) :
    areaFold (ts.map mkTri) acc = .ok (acc + (ts.map specAreaTerm).sum) := by
  induction ts generalizing acc with
  | nil => simp [areaFold]
  | cons t ts ih =>
      rw [List.map_cons, areaFold_cons_mkTri, ih, List.map_cons, List.sum_cons, add_assoc]

/-- C8: on an engine whose loaded triangle list is a (non-empty) list of
well-formed triangles, `calculate_area` returns the sum over the triangles
of half the magnitude of the cross product of the two edge vectors from
`p1`, divided by 100. -/
theorem calculate_area_spec (ts : List Tri3) (s : STLUtils)
    (hne : ts ≠ []) (hs : s._triangles = ts.map mkTri) :
    calculate_area s = .ok (some ((ts.map specAreaTerm).sum / 100)) := by
  have hemp := map_mkTri_not_empty ts hne
  simp only [calculate_area, hs, hemp, Bool.false_eq_true, if_false]
  rw [areaFold_map]
  simp [Except.map]

/-- Witness for C8: the triangle `(0,0,0), (1,0,0), (0,1,0)` has cross
product `(0,0,1)`, so its area term is `1/2` and the result is `1/200`. -/
theorem calculate_area_spec_witness :
    calculate_area
      { _volume := none, _triangles := [((0, 0, 0), (1, 0, 0), (0, 1, 0))].map mkTri,
        triangles_count := 1, is_binary_file := some true }
      = .ok (some ((1 : ℝ)/200)) := by
  rw [calculate_area_spec [((0, 0, 0), (1, 0, 0), (0, 1, 0))] _ (by decide) rfl]
  have hc : specCrossSq ((0, 0, 0), (1, 0, 0), (0, 1, 0)) = 1 := by decide
  simp only [List.map_cons, List.map_nil, List.sum_cons, List.sum_nil, specAreaTerm, hc]
  norm_num [Real.sqrt_one]

/-- C3 (amended): after any failed load the triangle list is empty, so
volume, area, triangle count and dimensions all reject uniformly with the
not-loaded report, exactly as on a never-loaded engine; the stored
`triangles_count`, however, is not reset to -1 — it keeps whatever value it
had when the exception was raised (the declared count once a binary load
has read the count field, the previous value otherwise). -/
theorem failed_load_rejects_uniformly (s : STLUtils) (f : List Nat) (e : PyErr) (c : Int)
    (h : loadResult s f = .error (e, c)) :
    (load_stl s f)._triangles = [] ∧
    (calculate_volume (load_stl s f)).1 = .ok none ∧
    calculate_area (load_stl s f) = .ok none ∧
    calculate_triangles (load_stl s f) = .ok none ∧
    calculate_dimensions (load_stl s f) = .ok none ∧
    (load_stl s f).triangles_count = c := by
  have hload : load_stl s f
      = { s with
          is_binary_file := some (_is_binary f),
          _triangles := [],
          triangles_count := c } := by
    unfold load_stl
    rw [h]
  rw [hload]
  exact ⟨rfl, by simp [calculate_volume], by simp [calculate_area],
    by simp [calculate_triangles], by simp [calculate_dimensions], rfl⟩

/-- Witness for C3: the truncated binary file fails with `struct.error`
while `triangles_count` holds the declared count 1, and the loaded state
rejects every measurement. -/
theorem failed_load_rejects_uniformly_witness :
    (load_stl STLUtils.init truncFile)._triangles = [] ∧
    (calculate_volume (load_stl STLUtils.init truncFile)).1 = .ok none ∧
    calculate_area (load_stl STLUtils.init truncFile) = .ok none ∧
    calculate_triangles (load_stl STLUtils.init truncFile) = .ok none ∧
    calculate_dimensions (load_stl STLUtils.init truncFile) = .ok none ∧
    (load_stl STLUtils.init truncFile).triangles_count = 1 :=
  failed_load_rejects_uniformly STLUtils.init truncFile .structError 1 (by decide)

/-- C6 (counterexample): immediately after construction the stored
triangle count is the sentinel -1 while the triangle list is empty, so the
count does not equal the list's length. -/
theorem fresh_count_differs_from_length :
    STLUtils.init.triangles_count = -1 ∧
    STLUtils.init._triangles.length = 0 ∧
    ¬STLUtils.init.triangles_count = (STLUtils.init._triangles.length : Int) := by
  decide

/-- A successful run of the binary record loop returns exactly as many
triangles as it was asked for. -/
theorem readTriangles_length (n : Nat) :
    ∀ h tris, readTriangles h n = .ok tris → tris.length = n := by
  induction n with
  | zero =>
      intro h tris ht
      rw [readTriangles] at ht
      cases ht
      rfl
  | succ n ih =>
      intro h tris ht
      rw [readTriangles] at ht
      split at ht
      · cases ht
      · split at ht
        · cases ht
        · rename_i rest hrest
          cases ht
          simp [ih _ _ hrest]

/-- C6 (amended): after every successful load the stored triangle count
and the list length agree, in the form `length = count.toNat` (a binary
file declaring a negative count loads zero triangles while keeping the
negative count; for every other successful load the count is exactly the
length).  After construction the count is the sentinel -1 with an empty
list, and a failed load empties the list while keeping the count. -/
theorem successful_load_count_matches (s : STLUtils) (f : List Nat)
    (tris : List TriEntry) (c : Int) (h : loadResult s f = .ok (tris, c)) :
    (load_stl s f)._triangles.length = (load_stl s f).triangles_count.toNat ∧
    (load_stl s f)._triangles = tris ∧ (load_stl s f).triangles_count = c := by
  have hload : load_stl s f
      = { s with
          is_binary_file := some (_is_binary f),
          _triangles := tris,
          triangles_count := c } := by
    unfold load_stl
    rw [h]
  rw [hload]
  refine ⟨?_, rfl, rfl⟩
  show tris.length = c.toNat
  unfold loadResult at h
  by_cases hb : _is_binary f
  · rw [if_pos hb] at h
    rw [binLoad] at h
    split at h
    · cases h
    · split at h
      · rename_i hr
        cases h
        exact readTriangles_length _ _ _ hr
      · cases h
  · rw [if_neg hb] at h
    rw [asciiLoad] at h
    split at h
    · cases h
      exact (Int.toNat_ofNat _).symm
    · cases h

/-- Witness for C6: loading the well-formed binary file `fileA` gives one
triangle and count 1, which agree. -/
theorem successful_load_count_matches_witness :
    (load_stl STLUtils.init fileA)._triangles.length
      = (load_stl STLUtils.init fileA).triangles_count.toNat :=
  (successful_load_count_matches STLUtils.init fileA
    [TriEntry.tri [1, 0, 0] [0, 1, 0] [0, 0, 1]] 1 (by decide)).1

end SMC
